import Mathlib

/-! SwiftGeographicLib: the UTMUPS shim

A shallow embedding of `Sources/UTMUPS/UTMUPS.cpp` and `Sources/UTMUPS/include/UTMUPS.h`.

The shim forwards every call to the geodesy library `GeographicLib::UTMUPS` and
turns the exceptions of `Forward`, `Reverse` and `Transfer` into sentinel outputs.

* A C++ `double` is a value of `Double`: NaN, an infinity, or a real number given
  exactly (every finite double is a rational).  The shim never computes with a
  double; it passes them on and assigns `NAN`.
* A C++ `int` is an `Int`; the shim does no integer arithmetic.
* A call that may throw returns `Except GeographicErr _`.
* Output parameters passed by reference (`int& zone`, `double& x` ...) are a record:
  the record given to a shim function holds what the caller's variables held
  before the call, the record returned holds what they hold after it.
-/

/-- The values of a C++ `double` that the zone rules and the shim can tell apart. -/
inductive Double where
  | nan
  | inf (negative : Bool)
  | real (q : ℚ)
  deriving DecidableEq

/-- The test `isnan(d)`. -/
def Double.isNaN : Double → Bool
  | .nan => true
  | _ => false

/-- The constant `NAN` of `<math.h>`. -/
def NAN : Double := Double.nan

/-- The exception class of the library, `GeographicLib::GeographicErr`.  It derives from
`std::runtime_error`, so a handler `catch (const std::exception& e)` catches it. -/
structure GeographicErr where
  what : String
  deriving DecidableEq

/-- The reference parameters `zone, northp, x, y, convergence, scale` of `Forward`. -/
structure ForwardOut where
  zone : Int
  northp : Bool
  x : Double
  y : Double
  convergence : Double
  scale : Double
  deriving DecidableEq

/-- The reference parameters `lat, lon, convergence, k` of `Reverse`. -/
structure ReverseOut where
  lat : Double
  lon : Double
  convergence : Double
  k : Double
  deriving DecidableEq

/-- The reference parameters `xout, yout, zone` of `Transfer`. -/
structure TransferOut where
  xout : Double
  yout : Double
  zone : Int
  deriving DecidableEq

/-- The static functions of the class `GeographicLib::UTMUPS` that the shim calls
(`#include <GeographicLib/UTMUPS.hpp>`).  The library's implementation is not part of the
shim, which is verified for every library of this interface.  A call either returns,
having written all its reference parameters, or throws a `GeographicErr`, having
written none of them. -/
structure GeographicLib.UTMUPS where
  UTMShift : Double
  StandardZone : Double → Double → Int → Except GeographicErr Int
  Forward : Double → Double → Int → Bool → Except GeographicErr ForwardOut
  Reverse : Int → Bool → Double → Double → Bool → Except GeographicErr ReverseOut
  Transfer : Int → Bool → Double → Double → Int → Bool → Except GeographicErr TransferOut

namespace UTMUPS

/-! ## `enum zonespec` (UTMUPS.h) -/

/-- The smallest pseudo-zone number. -/
def MINPSEUDOZONE : Int := -4
/-- A marker for an undefined or invalid zone.  Equivalent to NaN. -/
def INVALID : Int := -4
/-- If a coordinate already includes zone information use that, otherwise apply the
STANDARD rules. -/
def MATCH : Int := -3
/-- Apply the standard rules for UTM zone assignment extending the UTM zone to each pole. -/
def UTM : Int := -2
/-- Apply the standard rules for zone assignment to give a zone number in [0, 60]. -/
def STANDARD : Int := -1
/-- The largest pseudo-zone number. -/
def MAXPSEUDOZONE : Int := -1
/-- The smallest physical zone number. -/
def MINZONE : Int := 0
/-- The zone number used for UPS. -/
def UPS : Int := 0
/-- The smallest UTM zone number. -/
def MINUTMZONE : Int := 1
/-- The largest UTM zone number. -/
def MAXUTMZONE : Int := 60
/-- The largest physical zone number. -/
def MAXZONE : Int := 60

/-! ## The shim (UTMUPS.cpp) -/

/-- `double UTMUPS::UTMShift() { return UTMUPS::UTMShift(); }`.  Inside the class `UTMUPS`
the qualified name `UTMUPS::UTMShift` is the function being defined, so the body is a call
of itself.  `fuel` bounds the depth of the calls; `none` means the call has not returned
within that depth. -/
def UTMShift : Nat → Option Double
  | 0 => none
  | fuel + 1 => UTMShift fuel

/-- `int UTMUPS::StandardZone(double latitude, double longitude, int setZone)`: the
library's result, or the library's exception, which no handler stops.  The declaration
gives `setzone` the default `UTMUPS::STANDARD`. -/
def StandardZone (lib : GeographicLib.UTMUPS) (latitude longitude : Double)
    (setZone : Int := STANDARD) : Except GeographicErr Int :=
  lib.StandardZone latitude longitude setZone

/-- `void UTMUPS::Forward(...)`: `try` the library call; in the handler assign
`zone = -4` and `NAN` to `x, y, convergence, scale`, and call `e.what()`. -/
def Forward (lib : GeographicLib.UTMUPS) (lat lon : Double) (out : ForwardOut)
    (setzone : Int := STANDARD) (mgrslimits : Bool := false) :
    Except GeographicErr ForwardOut :=
  match lib.Forward lat lon setzone mgrslimits with
  | .ok r => .ok r
  | .error e =>
    let _ := e.what
    .ok { out with zone := -4, x := NAN, y := NAN, convergence := NAN, scale := NAN }

/-- `void UTMUPS::Reverse(...)`: `try` the library call; in the handler assign `NAN` to
`lat, lon, convergence, k`. -/
def Reverse (lib : GeographicLib.UTMUPS) (zone : Int) (northp : Bool) (x y : Double)
    (out : ReverseOut) (mgrslimits : Bool := false) : Except GeographicErr ReverseOut :=
  match lib.Reverse zone northp x y mgrslimits with
  | .ok r => .ok r
  | .error _ => .ok { out with lat := NAN, lon := NAN, convergence := NAN, k := NAN }

/-- `void UTMUPS::Transfer(...)`: `try` the library call; in the handler assign `NAN` to
`xout, yout` and `-4` to `zone`. -/
def Transfer (lib : GeographicLib.UTMUPS) (zonein : Int) (northpin : Bool) (xin yin : Double)
    (zoneout : Int) (northpout : Bool) (out : TransferOut) : Except GeographicErr TransferOut :=
  match lib.Transfer zonein northpin xin yin zoneout northpout with
  | .ok r => .ok r
  | .error _ => .ok { out with xout := NAN, yout := NAN, zone := -4 }

end UTMUPS

/-! ## The library, as far as the specification describes it

`GeographicLib::UTMUPS` itself is not among the sources of the shim.  The definitions
below follow the specification (§4.1, §7) and the comments of `enum zonespec`. -/

namespace GeographicLib.Spec

/-- Modelled from the spec: the library's reduction of a longitude to [−180°, 180°)
("longitude is first reduced to [−180°, 180°)", §4.1). -/
def reduceLongitude (lon : ℚ) : ℚ :=
  lon - 360 * ⌊(lon + 180) / 360⌋

/-- Modelled from the spec: the library's UTM band rule (§4.1).  The band is
`floor(longitude/6) + 31` clipped into [1, 60]; the Norway exception forces zone 32 for
latitude in [56°, 64°) and longitude in [3°, 12°); the Svalbard exception, for latitude
in [72°, 84°), gives 31 on [0°, 9°), 33 on [9°, 21°), 35 on [21°, 33°), 37 on [33°, 42°). -/
def utmBand (lat lon : ℚ) : Int :=
  let l := reduceLongitude lon
  if 56 ≤ lat ∧ lat < 64 ∧ 3 ≤ l ∧ l < 12 then 32
  else if 72 ≤ lat ∧ lat < 84 ∧ 0 ≤ l ∧ l < 9 then 31
  else if 72 ≤ lat ∧ lat < 84 ∧ 9 ≤ l ∧ l < 21 then 33
  else if 72 ≤ lat ∧ lat < 84 ∧ 21 ≤ l ∧ l < 33 then 35
  else if 72 ≤ lat ∧ lat < 84 ∧ 33 ≤ l ∧ l < 42 then 37
  else max 1 (min 60 (⌊l / 6⌋ + 31))

/-- Modelled from the spec: the library function `GeographicLib::UTMUPS::StandardZone`
(§4.1, and the comments on `STANDARD` and `UTM` in UTMUPS.h).  `MATCH`, `INVALID` and a
number that is no zone specifier are an invalid argument; a physical zone is returned
unchanged; `UTM` gives the UTM band at every latitude; `STANDARD` gives UPS when the
latitude is not in [−80°, 84°) and the UTM band otherwise.  The spec states the rule for
real positions only: a position with a NaN or infinite coordinate is given the marker
`INVALID`, which UTMUPS.h calls "equivalent to NaN". -/
def StandardZone (lat lon : Double) (setzone : Int) : Except GeographicErr Int :=
  if setzone = UTMUPS.MATCH ∨ setzone = UTMUPS.INVALID then
    .error ⟨"Illegal zone requested"⟩
  else if UTMUPS.MINZONE ≤ setzone ∧ setzone ≤ UTMUPS.MAXZONE then
    .ok setzone
  else if setzone = UTMUPS.UTM ∨ setzone = UTMUPS.STANDARD then
    match lat, lon with
    | .real a, .real b =>
      if setzone = UTMUPS.UTM then .ok (utmBand a b)
      else if -80 ≤ a ∧ a < 84 then .ok (utmBand a b)
      else .ok UTMUPS.UPS
    | _, _ => .ok UTMUPS.INVALID
  else
    .error ⟨"Illegal zone requested"⟩

/-- Modelled from the spec: the argument checks of the library (§7, "Invalid input
(latitude out of range, invalid zone number, invalid pseudo-zone for the operation) —
detected locally before invoking the projection").  `StandardZone` is the zone rule;
`Forward` rejects a latitude that is not in [−90°, 90°] (§4.1, step 1); `Reverse`, and
`Transfer` at its inner reverse step, reject a zone that is not in 0–60.  What a call
with valid arguments computes is the external projection, which the spec does not
describe: it is the parameter `projection`. -/
def lib (projection : GeographicLib.UTMUPS) : GeographicLib.UTMUPS where
  UTMShift := projection.UTMShift
  StandardZone := StandardZone
  Forward lat lon setzone mgrslimits :=
    match lat with
    | .real a =>
      if -90 ≤ a ∧ a ≤ 90 then projection.Forward lat lon setzone mgrslimits
      else .error ⟨"Latitude not in [-90d, 90d]"⟩
    | _ => .error ⟨"Latitude not in [-90d, 90d]"⟩
  Reverse zone northp x y mgrslimits :=
    if UTMUPS.MINZONE ≤ zone ∧ zone ≤ UTMUPS.MAXZONE then
      projection.Reverse zone northp x y mgrslimits
    else .error ⟨"Zone not in range [0, 60]"⟩
  Transfer zonein northpin xin yin zoneout northpout :=
    if UTMUPS.MINZONE ≤ zonein ∧ zonein ≤ UTMUPS.MAXZONE then
      projection.Transfer zonein northpin xin yin zoneout northpout
    else .error ⟨"Zone not in range [0, 60]"⟩

/-- A stand-in for the external projection, with the same outputs for every input (those
of the central point of UTM zone 31 on the equator).  It serves only to evaluate the shim
at concrete inputs. -/
def origin : GeographicLib.UTMUPS where
  UTMShift := .real 10000000
  StandardZone _ _ setzone := .ok setzone
  Forward _ _ _ _ := .ok ⟨31, true, .real 500000, .real 0, .real 0, .real (9996 / 10000)⟩
  Reverse _ _ _ _ _ := .ok ⟨.real 0, .real 3, .real 0, .real (9996 / 10000)⟩
  Transfer _ _ xin yin zoneout _ := .ok ⟨xin, yin, zoneout⟩

end GeographicLib.Spec

/-! ## Theorems -/

/-- C1: `UTMUPS::Forward` never propagates a failure.  For every library and every input
`(lat, lon, setzone, mgrslimits)` on which the library's `Forward` throws, the wrapper
returns normally with `zone = -4` (which is `INVALID`) and `x`, `y`, `convergence`,
`scale` all NaN, whatever the caller's variables held before the call. -/
theorem forward_failure_gives_sentinel (lib : GeographicLib.UTMUPS) (lat lon : Double)
    (out : ForwardOut) (setzone : Int) (mgrslimits : Bool) (e : GeographicErr)
    (h : lib.Forward lat lon setzone mgrslimits = .error e) :
    ∃ r, UTMUPS.Forward lib lat lon out setzone mgrslimits = .ok r ∧
      r.zone = -4 ∧ r.zone = UTMUPS.INVALID ∧ r.x.isNaN = true ∧ r.y.isNaN = true ∧
      r.convergence.isNaN = true ∧ r.scale.isNaN = true := by
  refine ⟨{ out with zone := -4, x := NAN, y := NAN, convergence := NAN, scale := NAN }, ?_⟩
  simp [UTMUPS.Forward, h, UTMUPS.INVALID, NAN, Double.isNaN]

/-- Witness of C1: latitude 91° is rejected by the library, and the wrapper called on
variables holding `7, false, 1, 2, 3, 4` returns the sentinel. -/
theorem forward_failure_gives_sentinel_witness :
    (GeographicLib.Spec.lib GeographicLib.Spec.origin).Forward (.real 91) (.real 0)
        UTMUPS.STANDARD false = .error ⟨"Latitude not in [-90d, 90d]"⟩ ∧
    ∃ r, UTMUPS.Forward (GeographicLib.Spec.lib GeographicLib.Spec.origin) (.real 91) (.real 0)
        ⟨7, false, .real 1, .real 2, .real 3, .real 4⟩ UTMUPS.STANDARD false = .ok r ∧
      r.zone = -4 ∧ r.zone = UTMUPS.INVALID ∧ r.x.isNaN = true ∧ r.y.isNaN = true ∧
      r.convergence.isNaN = true ∧ r.scale.isNaN = true :=
  ⟨rfl, forward_failure_gives_sentinel _ _ _ _ _ _ _ rfl⟩

/-- C2: `UTMUPS::Reverse` never propagates a failure.  For every library and every input
`(zone, northp, x, y, mgrslimits)` on which the library's `Reverse` throws, the wrapper
returns normally with `lat`, `lon`, `convergence` and `k` all NaN. -/
theorem reverse_failure_gives_nan (lib : GeographicLib.UTMUPS) (zone : Int) (northp : Bool)
    (x y : Double) (out : ReverseOut) (mgrslimits : Bool) (e : GeographicErr)
    (h : lib.Reverse zone northp x y mgrslimits = .error e) :
    ∃ r, UTMUPS.Reverse lib zone northp x y out mgrslimits = .ok r ∧
      r.lat.isNaN = true ∧ r.lon.isNaN = true ∧ r.convergence.isNaN = true ∧
      r.k.isNaN = true := by
  refine ⟨{ out with lat := NAN, lon := NAN, convergence := NAN, k := NAN }, ?_⟩
  simp [UTMUPS.Reverse, h, NAN, Double.isNaN]

/-- Witness of C2: the pseudo-zone −4 passed as `zone` is rejected by the library, and
the wrapper returns four NaN. -/
theorem reverse_failure_gives_nan_witness :
    (GeographicLib.Spec.lib GeographicLib.Spec.origin).Reverse (-4) true (.real 0) (.real 0)
        false = .error ⟨"Zone not in range [0, 60]"⟩ ∧
    ∃ r, UTMUPS.Reverse (GeographicLib.Spec.lib GeographicLib.Spec.origin) (-4) true (.real 0)
        (.real 0) ⟨.real 1, .real 2, .real 3, .real 4⟩ false = .ok r ∧
      r.lat.isNaN = true ∧ r.lon.isNaN = true ∧ r.convergence.isNaN = true ∧
      r.k.isNaN = true :=
  ⟨rfl, reverse_failure_gives_nan _ _ _ _ _ _ _ _ rfl⟩

/-- C3: `UTMUPS::Transfer` never propagates a failure.  For every library and every input
on which the library's `Transfer` throws (at whichever inner step), the wrapper returns
normally with `xout = NaN`, `yout = NaN` and `zone = -4 = INVALID`. -/
theorem transfer_failure_gives_sentinel (lib : GeographicLib.UTMUPS) (zonein : Int)
    (northpin : Bool) (xin yin : Double) (zoneout : Int) (northpout : Bool)
    (out : TransferOut) (e : GeographicErr)
    (h : lib.Transfer zonein northpin xin yin zoneout northpout = .error e) :
    ∃ r, UTMUPS.Transfer lib zonein northpin xin yin zoneout northpout out = .ok r ∧
      r.xout.isNaN = true ∧ r.yout.isNaN = true ∧ r.zone = -4 ∧
      r.zone = UTMUPS.INVALID := by
  refine ⟨{ out with xout := NAN, yout := NAN, zone := -4 }, ?_⟩
  simp [UTMUPS.Transfer, h, UTMUPS.INVALID, NAN, Double.isNaN]

/-- Witness of C3: a transfer out of the pseudo-zone −3 fails at the inner reverse step,
and the wrapper returns the sentinel. -/
theorem transfer_failure_gives_sentinel_witness :
    (GeographicLib.Spec.lib GeographicLib.Spec.origin).Transfer (-3) true (.real 500000)
        (.real 0) 32 true = .error ⟨"Zone not in range [0, 60]"⟩ ∧
    ∃ r, UTMUPS.Transfer (GeographicLib.Spec.lib GeographicLib.Spec.origin) (-3) true
        (.real 500000) (.real 0) 32 true ⟨.real 1, .real 2, 7⟩ = .ok r ∧
      r.xout.isNaN = true ∧ r.yout.isNaN = true ∧ r.zone = -4 ∧
      r.zone = UTMUPS.INVALID :=
  ⟨rfl, transfer_failure_gives_sentinel _ _ _ _ _ _ _ _ _ rfl⟩

/-- C4 (the code at the failing call): `UTMUPS::UTMShift()` calls itself and nothing
else, so whatever the depth of calls allowed it has not returned; in particular it never
returns the constant `UTMShift` of any library. -/
theorem utmShift_never_returns (lib : GeographicLib.UTMUPS) (fuel : Nat) :
    UTMUPS.UTMShift fuel = none ∧ UTMUPS.UTMShift fuel ≠ some lib.UTMShift := by
  have h : UTMUPS.UTMShift fuel = none := by
    induction fuel with
    | zero => rfl
    | succ n ih => simpa [UTMUPS.UTMShift] using ih
  simp [h]

/-- C5 as stated fails: `UTMUPS::StandardZone` has no handler, so a failure signalled by
the library crosses the shim's boundary.  With the library of the spec, the calls
`StandardZone(0, 0, MATCH)` and `StandardZone(0, 0, 61)` do not return a zone: they end
in the library's exception. -/
theorem standardZone_failure_crosses_boundary :
    UTMUPS.StandardZone (GeographicLib.Spec.lib GeographicLib.Spec.origin) (.real 0) (.real 0)
        UTMUPS.MATCH = .error ⟨"Illegal zone requested"⟩ ∧
    UTMUPS.StandardZone (GeographicLib.Spec.lib GeographicLib.Spec.origin) (.real 0) (.real 0)
        61 = .error ⟨"Illegal zone requested"⟩ :=
  ⟨rfl, rfl⟩

/-- C5, amended: `Forward`, `Reverse` and `Transfer` are total from the caller's
perspective: for every library and every input, also one on which the library call
throws, they return normally, so no failure of the library crosses their boundary.
`StandardZone` returns what the library's `StandardZone` returns and fails when it fails. -/
theorem forward_reverse_transfer_total (lib : GeographicLib.UTMUPS) :
    (∀ (lat lon : Double) (out : ForwardOut) (setzone : Int) (mgrslimits : Bool),
      ∃ r, UTMUPS.Forward lib lat lon out setzone mgrslimits = .ok r) ∧
    (∀ (zone : Int) (northp : Bool) (x y : Double) (out : ReverseOut) (mgrslimits : Bool),
      ∃ r, UTMUPS.Reverse lib zone northp x y out mgrslimits = .ok r) ∧
    (∀ (zonein : Int) (northpin : Bool) (xin yin : Double) (zoneout : Int) (northpout : Bool)
        (out : TransferOut),
      ∃ r, UTMUPS.Transfer lib zonein northpin xin yin zoneout northpout out = .ok r) ∧
    (∀ (latitude longitude : Double) (setZone : Int),
      UTMUPS.StandardZone lib latitude longitude setZone =
        lib.StandardZone latitude longitude setZone) := by
  refine ⟨?_, ?_, ?_, fun _ _ _ => rfl⟩
  · intro lat lon out setzone mgrslimits
    unfold UTMUPS.Forward
    cases lib.Forward lat lon setzone mgrslimits <;> exact ⟨_, rfl⟩
  · intro zone northp x y out mgrslimits
    unfold UTMUPS.Reverse
    cases lib.Reverse zone northp x y mgrslimits <;> exact ⟨_, rfl⟩
  · intro zonein northpin xin yin zoneout northpout out
    unfold UTMUPS.Transfer
    cases lib.Transfer zonein northpin xin yin zoneout northpout <;> exact ⟨_, rfl⟩

/-- C6: `UTMUPS::StandardZone` called with `setzone = MATCH` (−3) or `setzone = INVALID`
(−4) signals the library's invalid-argument failure to its caller, for every latitude and
longitude (NaN and the infinities included); it returns no zone number. -/
theorem standardZone_match_invalid_fails (projection : GeographicLib.UTMUPS)
    (latitude longitude : Double) (setzone : Int)
    (h : setzone = UTMUPS.MATCH ∨ setzone = UTMUPS.INVALID) :
    UTMUPS.StandardZone (GeographicLib.Spec.lib projection) latitude longitude setzone =
        .error ⟨"Illegal zone requested"⟩ ∧
      ∀ z : Int, UTMUPS.StandardZone (GeographicLib.Spec.lib projection) latitude longitude
        setzone ≠ .ok z := by
  have e : UTMUPS.StandardZone (GeographicLib.Spec.lib projection) latitude longitude setzone =
      .error ⟨"Illegal zone requested"⟩ := by
    simp [UTMUPS.StandardZone, GeographicLib.Spec.lib, GeographicLib.Spec.StandardZone, h]
  refine ⟨e, fun z hz => ?_⟩
  rw [e] at hz
  cases hz

/-- Witness of C6: `StandardZone(60, 3, MATCH)` fails; under the STANDARD policy the same
position is in zone 32. -/
theorem standardZone_match_invalid_fails_witness :
    UTMUPS.StandardZone (GeographicLib.Spec.lib GeographicLib.Spec.origin) (.real 60) (.real 3)
        UTMUPS.MATCH = .error ⟨"Illegal zone requested"⟩ ∧
      ∀ z : Int, UTMUPS.StandardZone (GeographicLib.Spec.lib GeographicLib.Spec.origin)
        (.real 60) (.real 3) UTMUPS.MATCH ≠ .ok z :=
  standardZone_match_invalid_fails GeographicLib.Spec.origin (.real 60) (.real 3) UTMUPS.MATCH
    (Or.inl rfl)

/-- C7: success pass-through.  Whenever the library call with the same arguments, in the
same order, returns, the wrapper returns exactly the library's outputs, whatever the
caller's variables held: no sentinel is substituted.  `StandardZone` returns exactly the
library's `StandardZone` result. -/
theorem success_passes_through (lib : GeographicLib.UTMUPS) :
    (∀ (lat lon : Double) (out r : ForwardOut) (setzone : Int) (mgrslimits : Bool),
      lib.Forward lat lon setzone mgrslimits = .ok r →
      UTMUPS.Forward lib lat lon out setzone mgrslimits = .ok r) ∧
    (∀ (zone : Int) (northp : Bool) (x y : Double) (out r : ReverseOut) (mgrslimits : Bool),
      lib.Reverse zone northp x y mgrslimits = .ok r →
      UTMUPS.Reverse lib zone northp x y out mgrslimits = .ok r) ∧
    (∀ (zonein : Int) (northpin : Bool) (xin yin : Double) (zoneout : Int) (northpout : Bool)
        (out r : TransferOut),
      lib.Transfer zonein northpin xin yin zoneout northpout = .ok r →
      UTMUPS.Transfer lib zonein northpin xin yin zoneout northpout out = .ok r) ∧
    (∀ (latitude longitude : Double) (setZone z : Int),
      lib.StandardZone latitude longitude setZone = .ok z →
      UTMUPS.StandardZone lib latitude longitude setZone = .ok z) := by
  refine ⟨?_, ?_, ?_, ?_⟩
  · intro lat lon out r setzone mgrslimits h
    simp [UTMUPS.Forward, h]
  · intro zone northp x y out r mgrslimits h
    simp [UTMUPS.Reverse, h]
  · intro zonein northpin xin yin zoneout northpout out r h
    simp [UTMUPS.Transfer, h]
  · intro latitude longitude setZone z h
    simpa [UTMUPS.StandardZone] using h

/-- Witness of C7: on the equator at longitude 3°, in zone 31, every library call
succeeds and the wrapper returns the library's values in place of the `NaN`, `7` and
`false` the caller's variables held. -/
theorem success_passes_through_witness :
    UTMUPS.Forward (GeographicLib.Spec.lib GeographicLib.Spec.origin) (.real 0) (.real 3)
        ⟨7, false, .nan, .nan, .nan, .nan⟩ UTMUPS.STANDARD false =
      .ok ⟨31, true, .real 500000, .real 0, .real 0, .real (9996 / 10000)⟩ ∧
    UTMUPS.Reverse (GeographicLib.Spec.lib GeographicLib.Spec.origin) 31 true (.real 500000)
        (.real 0) ⟨.nan, .nan, .nan, .nan⟩ false =
      .ok ⟨.real 0, .real 3, .real 0, .real (9996 / 10000)⟩ ∧
    UTMUPS.Transfer (GeographicLib.Spec.lib GeographicLib.Spec.origin) 31 true (.real 500000)
        (.real 0) 31 true ⟨.nan, .nan, 7⟩ = .ok ⟨.real 500000, .real 0, 31⟩ ∧
    UTMUPS.StandardZone (GeographicLib.Spec.lib GeographicLib.Spec.origin) (.real 0) (.real 3)
        31 = .ok 31 :=
  ⟨(success_passes_through _).1 _ _ _ _ _ _ rfl,
   (success_passes_through _).2.1 _ _ _ _ _ _ _ rfl,
   (success_passes_through _).2.2.1 _ _ _ _ _ _ _ _ rfl,
   (success_passes_through _).2.2.2 _ _ _ _ rfl⟩

/-- The reduced longitude is in [−180°, 180°). -/
theorem reduceLongitude_mem (lon : ℚ) :
    -180 ≤ GeographicLib.Spec.reduceLongitude lon ∧
      GeographicLib.Spec.reduceLongitude lon < 180 := by
  unfold GeographicLib.Spec.reduceLongitude
  have h1 : ((⌊(lon + 180) / 360⌋ : Int) : ℚ) ≤ (lon + 180) / 360 := Int.floor_le _
  have h2 : (lon + 180) / 360 < ((⌊(lon + 180) / 360⌋ : Int) : ℚ) + 1 :=
    Int.lt_floor_add_one _
  constructor <;> linarith

/-- The zone rule on the examples of the spec (§8, properties 2 and 3): the Norway
exception at (60°, 3°), the plain band at (50°, 3°), and the Svalbard partition at
(75°, 10°), (75°, 8.9°) and (75°, 9°). -/
theorem standardZone_examples :
    GeographicLib.Spec.StandardZone (.real 60) (.real 3) UTMUPS.UTM = .ok 32 ∧
    GeographicLib.Spec.StandardZone (.real 50) (.real 3) UTMUPS.UTM = .ok 31 ∧
    GeographicLib.Spec.StandardZone (.real 75) (.real 10) UTMUPS.UTM = .ok 33 ∧
    GeographicLib.Spec.StandardZone (.real 75) (.real (89 / 10)) UTMUPS.UTM = .ok 31 ∧
    GeographicLib.Spec.StandardZone (.real 75) (.real 9) UTMUPS.UTM = .ok 33 := by
  refine ⟨?_, ?_, ?_, ?_, ?_⟩ <;>
    simp [GeographicLib.Spec.StandardZone, GeographicLib.Spec.utmBand,
      GeographicLib.Spec.reduceLongitude, UTMUPS.UTM, UTMUPS.MATCH, UTMUPS.INVALID,
      UTMUPS.MINZONE, UTMUPS.MAXZONE] <;>
    norm_num

/-- The UTM band rule gives a UTM zone, at every position. -/
theorem utmBand_mem (lat lon : ℚ) :
    1 ≤ GeographicLib.Spec.utmBand lat lon ∧ GeographicLib.Spec.utmBand lat lon ≤ 60 := by
  unfold GeographicLib.Spec.utmBand
  simp only []
  split_ifs
  · constructor <;> norm_num
  · constructor <;> norm_num
  · constructor <;> norm_num
  · constructor <;> norm_num
  · constructor <;> norm_num
  · exact ⟨le_max_left _ _, max_le (by norm_num) (min_le_left _ _)⟩

/-- C8: `StandardZone(latitude, longitude)` with `setzone` omitted uses the STANDARD policy
(`setzone = -1`): for every latitude in [−90°, 90°] and every longitude it returns the
UPS zone 0 exactly when the latitude is not in [−80°, 84°), and otherwise a UTM zone in
[1, 60]. -/
theorem standardZone_default_policy (projection : GeographicLib.UTMUPS) (latitude longitude : ℚ)
    (_hlat : -90 ≤ latitude ∧ latitude ≤ 90) :
    UTMUPS.StandardZone (GeographicLib.Spec.lib projection) (.real latitude) (.real longitude) =
      UTMUPS.StandardZone (GeographicLib.Spec.lib projection) (.real latitude) (.real longitude)
        (-1) ∧
    ∃ z, UTMUPS.StandardZone (GeographicLib.Spec.lib projection) (.real latitude)
        (.real longitude) = .ok z ∧
      (z = 0 ↔ ¬ (-80 ≤ latitude ∧ latitude < 84)) ∧
      (-80 ≤ latitude ∧ latitude < 84 → 1 ≤ z ∧ z ≤ 60) := by
  refine ⟨rfl, ?_⟩
  have hb := utmBand_mem latitude longitude
  by_cases hl : -80 ≤ latitude ∧ latitude < 84
  · refine ⟨GeographicLib.Spec.utmBand latitude longitude, ?_, ?_, fun _ => hb⟩
    · simp [UTMUPS.StandardZone, GeographicLib.Spec.lib, GeographicLib.Spec.StandardZone,
        UTMUPS.STANDARD, UTMUPS.MATCH, UTMUPS.INVALID, UTMUPS.MINZONE, UTMUPS.UTM, hl]
    · constructor
      · intro hz
        omega
      · intro hn
        exact absurd hl hn
  · refine ⟨0, ?_, ?_, fun hc => absurd hc hl⟩
    · simp [UTMUPS.StandardZone, GeographicLib.Spec.lib, GeographicLib.Spec.StandardZone,
        UTMUPS.STANDARD, UTMUPS.MATCH, UTMUPS.INVALID, UTMUPS.MINZONE, UTMUPS.UTM, UTMUPS.UPS, hl]
    · simp [hl]

/-- Witness of C8: at latitude 84°, the open end of [−80°, 84°), the zone is UPS. -/
theorem standardZone_default_policy_witness :
    ((-90 : ℚ) ≤ 84 ∧ (84 : ℚ) ≤ 90) ∧
    UTMUPS.StandardZone (GeographicLib.Spec.lib GeographicLib.Spec.origin) (.real 84) (.real 10) =
        .ok 0 ∧
    (UTMUPS.StandardZone (GeographicLib.Spec.lib GeographicLib.Spec.origin) (.real 84)
        (.real 10) =
      UTMUPS.StandardZone (GeographicLib.Spec.lib GeographicLib.Spec.origin) (.real 84)
        (.real 10) (-1) ∧
    ∃ z, UTMUPS.StandardZone (GeographicLib.Spec.lib GeographicLib.Spec.origin) (.real 84)
        (.real 10) = .ok z ∧
      (z = 0 ↔ ¬ ((-80 : ℚ) ≤ 84 ∧ (84 : ℚ) < 84)) ∧
      ((-80 : ℚ) ≤ 84 ∧ (84 : ℚ) < 84 → 1 ≤ z ∧ z ≤ 60)) :=
  ⟨by norm_num, rfl,
    standardZone_default_policy GeographicLib.Spec.origin 84 10 (by norm_num)⟩

/-- C9: the zone-specifier constants form two disjoint integer ranges.  The pseudo-zone
range [MINPSEUDOZONE, MAXPSEUDOZONE] = [−4, −1] contains INVALID = −4 = MINPSEUDOZONE,
MATCH = −3, UTM = −2 and STANDARD = −1; the physical range [MINZONE, MAXZONE] = [0, 60]
contains UPS = 0 and the UTM zones [MINUTMZONE, MAXUTMZONE] = [1, 60]; and the zone that
`Forward` and `Transfer` write when the library fails equals INVALID and is not a
physical zone. -/
theorem zonespec_ranges :
    (UTMUPS.MINPSEUDOZONE = -4 ∧ UTMUPS.MAXPSEUDOZONE = -1 ∧
      UTMUPS.INVALID = -4 ∧ UTMUPS.INVALID = UTMUPS.MINPSEUDOZONE ∧
      UTMUPS.MATCH = -3 ∧ UTMUPS.UTM = -2 ∧ UTMUPS.STANDARD = -1) ∧
    (∀ z ∈ [UTMUPS.INVALID, UTMUPS.MATCH, UTMUPS.UTM, UTMUPS.STANDARD],
      UTMUPS.MINPSEUDOZONE ≤ z ∧ z ≤ UTMUPS.MAXPSEUDOZONE) ∧
    (UTMUPS.MINZONE = 0 ∧ UTMUPS.MAXZONE = 60 ∧ UTMUPS.UPS = 0 ∧
      UTMUPS.MINUTMZONE = 1 ∧ UTMUPS.MAXUTMZONE = 60) ∧
    (UTMUPS.MINZONE ≤ UTMUPS.UPS ∧ UTMUPS.UPS ≤ UTMUPS.MAXZONE) ∧
    (∀ z : Int, UTMUPS.MINUTMZONE ≤ z ∧ z ≤ UTMUPS.MAXUTMZONE →
      UTMUPS.MINZONE ≤ z ∧ z ≤ UTMUPS.MAXZONE) ∧
    (∀ z : Int, ¬ ((UTMUPS.MINPSEUDOZONE ≤ z ∧ z ≤ UTMUPS.MAXPSEUDOZONE) ∧
      (UTMUPS.MINZONE ≤ z ∧ z ≤ UTMUPS.MAXZONE))) ∧
    (∀ (lib : GeographicLib.UTMUPS) (lat lon : Double) (out : ForwardOut) (setzone : Int)
        (mgrslimits : Bool) (e : GeographicErr),
      lib.Forward lat lon setzone mgrslimits = .error e →
      ∃ r, UTMUPS.Forward lib lat lon out setzone mgrslimits = .ok r ∧
        r.zone = UTMUPS.INVALID ∧ ¬ (UTMUPS.MINZONE ≤ r.zone ∧ r.zone ≤ UTMUPS.MAXZONE)) ∧
    (∀ (lib : GeographicLib.UTMUPS) (zonein : Int) (northpin : Bool) (xin yin : Double)
        (zoneout : Int) (northpout : Bool) (out : TransferOut) (e : GeographicErr),
      lib.Transfer zonein northpin xin yin zoneout northpout = .error e →
      ∃ r, UTMUPS.Transfer lib zonein northpin xin yin zoneout northpout out = .ok r ∧
        r.zone = UTMUPS.INVALID ∧ ¬ (UTMUPS.MINZONE ≤ r.zone ∧ r.zone ≤ UTMUPS.MAXZONE)) := by
  refine ⟨by decide, by decide, by decide, by decide, ?_, ?_, ?_, ?_⟩
  · intro z hz
    simp only [UTMUPS.MINUTMZONE, UTMUPS.MAXUTMZONE, UTMUPS.MINZONE, UTMUPS.MAXZONE] at *
    omega
  · intro z hz
    simp only [UTMUPS.MINPSEUDOZONE, UTMUPS.MAXPSEUDOZONE, UTMUPS.MINZONE, UTMUPS.MAXZONE] at hz
    omega
  · intro lib lat lon out setzone mgrslimits e h
    refine ⟨{ out with zone := -4, x := NAN, y := NAN, convergence := NAN, scale := NAN }, ?_⟩
    simp [UTMUPS.Forward, h, UTMUPS.INVALID, UTMUPS.MINZONE]
  · intro lib zonein northpin xin yin zoneout northpout out e h
    refine ⟨{ out with xout := NAN, yout := NAN, zone := -4 }, ?_⟩
    simp [UTMUPS.Transfer, h, UTMUPS.INVALID, UTMUPS.MINZONE]

/-- Witness of C9: the zone written by `Forward` for latitude 91° and by `Transfer` out
of the pseudo-zone −3 is INVALID, outside [MINZONE, MAXZONE]. -/
theorem zonespec_ranges_witness :
    (∃ r, UTMUPS.Forward (GeographicLib.Spec.lib GeographicLib.Spec.origin) (.real 91) (.real 0)
        ⟨31, true, .real 0, .real 0, .real 0, .real 0⟩ UTMUPS.STANDARD false = .ok r ∧
      r.zone = UTMUPS.INVALID ∧ ¬ (UTMUPS.MINZONE ≤ r.zone ∧ r.zone ≤ UTMUPS.MAXZONE)) ∧
    (∃ r, UTMUPS.Transfer (GeographicLib.Spec.lib GeographicLib.Spec.origin) (-3) true
        (.real 500000) (.real 0) 32 true ⟨.real 0, .real 0, 31⟩ = .ok r ∧
      r.zone = UTMUPS.INVALID ∧ ¬ (UTMUPS.MINZONE ≤ r.zone ∧ r.zone ≤ UTMUPS.MAXZONE)) :=
  ⟨zonespec_ranges.2.2.2.2.2.2.1 _ _ _ _ _ _ _ rfl,
   zonespec_ranges.2.2.2.2.2.2.2 _ _ _ _ _ _ _ _ _ rfl⟩

/-- C10: when the library's `Forward` throws, `UTMUPS::Forward` overwrites only `zone`,
`x`, `y`, `convergence` and `scale`; `northp` keeps the value the caller's variable held
before the call.  The record returned is therefore the same for every failing input: the
`northp` of a failed `Forward` says nothing about the latitude. -/
theorem forward_failure_keeps_northp (lib : GeographicLib.UTMUPS) (lat lon : Double)
    (out : ForwardOut) (setzone : Int) (mgrslimits : Bool) (e : GeographicErr)
    (h : lib.Forward lat lon setzone mgrslimits = .error e) :
    UTMUPS.Forward lib lat lon out setzone mgrslimits =
        .ok ⟨-4, out.northp, NAN, NAN, NAN, NAN⟩ ∧
      ∀ (lat2 lon2 : Double) (setzone2 : Int) (mgrslimits2 : Bool) (e2 : GeographicErr),
        lib.Forward lat2 lon2 setzone2 mgrslimits2 = .error e2 →
        UTMUPS.Forward lib lat2 lon2 out setzone2 mgrslimits2 =
          UTMUPS.Forward lib lat lon out setzone mgrslimits := by
  constructor
  · simp [UTMUPS.Forward, h]
  · intro lat2 lon2 setzone2 mgrslimits2 e2 h2
    simp [UTMUPS.Forward, h, h2]

/-- Witness of C10: latitudes −91° and 91° are both rejected; called on a variable
`northp` that holds `true`, the wrapper leaves `true` there for both, the southern
latitude included. -/
theorem forward_failure_keeps_northp_witness :
    UTMUPS.Forward (GeographicLib.Spec.lib GeographicLib.Spec.origin) (.real (-91)) (.real 0)
        ⟨31, true, .real 1, .real 2, .real 3, .real 4⟩ UTMUPS.STANDARD false =
      .ok ⟨-4, true, NAN, NAN, NAN, NAN⟩ ∧
    UTMUPS.Forward (GeographicLib.Spec.lib GeographicLib.Spec.origin) (.real 91) (.real 0)
        ⟨31, true, .real 1, .real 2, .real 3, .real 4⟩ UTMUPS.STANDARD false =
      UTMUPS.Forward (GeographicLib.Spec.lib GeographicLib.Spec.origin) (.real (-91)) (.real 0)
        ⟨31, true, .real 1, .real 2, .real 3, .real 4⟩ UTMUPS.STANDARD false :=
  ⟨(forward_failure_keeps_northp (GeographicLib.Spec.lib GeographicLib.Spec.origin)
      (.real (-91)) (.real 0) ⟨31, true, .real 1, .real 2, .real 3, .real 4⟩ UTMUPS.STANDARD
      false ⟨"Latitude not in [-90d, 90d]"⟩ (by norm_num [GeographicLib.Spec.lib])).1,
   (forward_failure_keeps_northp (GeographicLib.Spec.lib GeographicLib.Spec.origin)
      (.real (-91)) (.real 0) ⟨31, true, .real 1, .real 2, .real 3, .real 4⟩ UTMUPS.STANDARD
      false ⟨"Latitude not in [-90d, 90d]"⟩ (by norm_num [GeographicLib.Spec.lib])).2 (.real 91) (.real 0) UTMUPS.STANDARD false
      ⟨"Latitude not in [-90d, 90d]"⟩ rfl⟩
